import Mathlib

/-!
Verification of the FlexCableAligner jog-control engine against its
natural-language specification.  All real-valued quantities of the Python
source are embedded as rationals; each definition is a direct transcription
of the function it is named after.
-/

namespace FlexCableAligner

/-! ## Velocity shaping (src/include/SmoothJoggingConfig.py and src/include/config.py)

`SmoothJoggingConfig.get_velocity_curve` and `JogConfig.get_velocity_curve`
convert a stick sample in `[-1, 1]` into a signed velocity in mm/min.  The
`acceleration_curve` exponent is `2.0` in both sources and is only ever used
as the exponent of a clamped value, so it is embedded as a natural number.
-/

/-- Configuration fields of `SmoothJoggingConfig.__init__` that
`get_velocity_curve` reads. -/
structure SmoothJoggingConfig where
  base_speed : ℚ
  max_speed : ℚ
  deadzone : ℚ
  acceleration_curve : ℕ
  velocity_scale : ℚ
  deriving DecidableEq

/-- Default values set in `SmoothJoggingConfig.__init__`:
base 600, max 2000, deadzone 0.12, curve 2.0, velocity_scale 0.5. -/
def SmoothJoggingConfig.default : SmoothJoggingConfig :=
  { base_speed := 600, max_speed := 2000, deadzone := 12/100
    acceleration_curve := 2, velocity_scale := 1/2 }

/-- `normalized = min(1.0, max(0.0, (abs(stick) - deadzone) / (1.0 - deadzone)))`. -/
def SmoothJoggingConfig.normalized (cfg : SmoothJoggingConfig) (stick_input : ℚ) : ℚ :=
  min 1 (max 0 ((|stick_input| - cfg.deadzone) / (1 - cfg.deadzone)))

/-- `curved_input = normalized ** acceleration_curve`. -/
def SmoothJoggingConfig.curved (cfg : SmoothJoggingConfig) (stick_input : ℚ) : ℚ :=
  cfg.normalized stick_input ^ cfg.acceleration_curve

/-- `max_vel`: `base_speed * 0.2` in fine mode, else
`base_speed + (max_speed - base_speed) * curved_input`. -/
def SmoothJoggingConfig.max_vel (cfg : SmoothJoggingConfig) (stick_input : ℚ)
    (fine_mode : Bool) : ℚ :=
  if fine_mode then cfg.base_speed * (1/5)
  else cfg.base_speed + (cfg.max_speed - cfg.base_speed) * cfg.curved stick_input

/-- `SmoothJoggingConfig.get_velocity_curve`: deadzone cut-off, normalisation,
shaping exponent, velocity scaling, sign copied from the input. -/
def SmoothJoggingConfig.get_velocity_curve (cfg : SmoothJoggingConfig)
    (stick_input : ℚ) (fine_mode : Bool) : ℚ :=
  if |stick_input| < cfg.deadzone then 0
  else if 0 ≤ stick_input then
    cfg.curved stick_input * cfg.max_vel stick_input fine_mode * cfg.velocity_scale
  else
    -(cfg.curved stick_input * cfg.max_vel stick_input fine_mode * cfg.velocity_scale)

/-- Configuration fields of `JogConfig.__init__` that `get_velocity_curve`
reads.  `fine_velocity_factor` is set to `1.0` by `__init__` and is never
written anywhere else in the repository. -/
structure JogConfig where
  base_speed : ℚ
  max_speed : ℚ
  deadzone : ℚ
  acceleration_curve : ℕ
  velocity_scale : ℚ
  fine_velocity_factor : ℚ
  deriving DecidableEq

/-- Default values set in `JogConfig.__init__`. -/
def JogConfig.default : JogConfig :=
  { base_speed := 600, max_speed := 40000, deadzone := 12/100
    acceleration_curve := 2, velocity_scale := 1/2, fine_velocity_factor := 1 }

/-- `normalized = max(0.0, min(1.0, (abs(stick) - deadzone) / (1.0 - deadzone)))`. -/
def JogConfig.normalized (cfg : JogConfig) (stick_input : ℚ) : ℚ :=
  max 0 (min 1 ((|stick_input| - cfg.deadzone) / (1 - cfg.deadzone)))

/-- `curved = normalized ** acceleration_curve`. -/
def JogConfig.curved (cfg : JogConfig) (stick_input : ℚ) : ℚ :=
  cfg.normalized stick_input ^ cfg.acceleration_curve

/-- `max_vel`: in fine mode the non-fine value times `fine_velocity_factor`,
else `base_speed + (max_speed - base_speed) * curved`. -/
def JogConfig.max_vel (cfg : JogConfig) (stick_input : ℚ) (fine_mode : Bool) : ℚ :=
  if fine_mode then
    (cfg.base_speed + (cfg.max_speed - cfg.base_speed) * cfg.curved stick_input)
      * cfg.fine_velocity_factor
  else cfg.base_speed + (cfg.max_speed - cfg.base_speed) * cfg.curved stick_input

/-- `JogConfig.get_velocity_curve`. -/
def JogConfig.get_velocity_curve (cfg : JogConfig) (stick_input : ℚ)
    (fine_mode : Bool) : ℚ :=
  if |stick_input| < cfg.deadzone then 0
  else if 0 ≤ stick_input then
    cfg.curved stick_input * cfg.max_vel stick_input fine_mode * cfg.velocity_scale
  else
    -(cfg.curved stick_input * cfg.max_vel stick_input fine_mode * cfg.velocity_scale)

/-! ## Jog dedup in the GUI loop (src/include/gui.py, FlexAlignerGUI._execute_jog)

`_execute_jog` keeps per-carriage `_last_dir_sent` / `_last_feed_sent`
dictionaries and only calls `Printer.jog` when the direction tuple changed or
the feed moved by more than 50 mm/min.  Display-velocity and position
bookkeeping of `_execute_jog` does not influence command issuance and is not
modelled.
-/

/-- A direction tuple with components in `{-1, 0, 1}`. -/
abbrev Dir3 := Int × Int × Int

/-- A motion command issued by the jog loop. -/
inductive JogCommand
  | jog (dir : Dir3) (feed : ℚ)
  | stop
  deriving DecidableEq

/-- The `_last_dir_sent` / `_last_feed_sent` dictionaries of `FlexAlignerGUI`,
keyed by carriage 1 or 2. -/
structure GuiDedupState where
  last_dir_sent1 : Dir3
  last_dir_sent2 : Dir3
  last_feed_sent1 : ℚ
  last_feed_sent2 : ℚ
  deriving DecidableEq

/-- Dictionary lookup `_last_dir_sent[car]`. -/
def GuiDedupState.lastDir (s : GuiDedupState) (car : ℕ) : Dir3 :=
  if car = 2 then s.last_dir_sent2 else s.last_dir_sent1

/-- Dictionary lookup `_last_feed_sent[car]`. -/
def GuiDedupState.lastFeed (s : GuiDedupState) (car : ℕ) : ℚ :=
  if car = 2 then s.last_feed_sent2 else s.last_feed_sent1

/-- Simultaneous dictionary writes `_last_dir_sent[car] = d` and
`_last_feed_sent[car] = f`. -/
def GuiDedupState.setLast (s : GuiDedupState) (car : ℕ) (d : Dir3) (f : ℚ) :
    GuiDedupState :=
  if car = 2 then { s with last_dir_sent2 := d, last_feed_sent2 := f }
  else { s with last_dir_sent1 := d, last_feed_sent1 := f }

/-- `1 if d > 0 else (-1 if d < 0 else 0)` on an integer component. -/
def signi (d : Int) : Int := if 0 < d then 1 else if d < 0 then -1 else 0

/-- The feed resend threshold hard-coded at `50.0` mm/min in `_execute_jog`. -/
def feed_resend_threshold : ℚ := 50

/-- `FlexAlignerGUI._execute_jog` for the selected carriage `car`:
`feed = max(0.0, feed_in)`; on all-zero direction or feed below
`velocity_stop_threshold`, stop once if the last sent direction was nonzero;
otherwise (re)issue `Printer.jog` with sign components and `max(1.0, feed)`
exactly when the direction or the feed changed meaningfully. -/
def execute_jog (velocity_stop_threshold : ℚ) (car : ℕ) (s : GuiDedupState)
    (dir : Dir3) (feed_in : ℚ) : Option JogCommand × GuiDedupState :=
  if dir = (0, 0, 0) ∨ max 0 feed_in < velocity_stop_threshold then
    if s.lastDir car ≠ (0, 0, 0) then
      (some JogCommand.stop, s.setLast car (0, 0, 0) 0)
    else (none, s)
  else if dir ≠ s.lastDir car
      ∨ |max 0 feed_in - s.lastFeed car| > feed_resend_threshold then
    (some (JogCommand.jog (signi dir.1, signi dir.2.1, signi dir.2.2)
        (max 1 (max 0 feed_in))),
      s.setLast car dir (max 0 feed_in))
  else (none, s)

/-! ## OctoPrint plugin loop (src/octoprint_flex_cable_aligner/__init__.py,
FlexCableAlignerPlugin._loop, lines 210-224)

While the stick is in the deadzone the plugin re-sends M410: immediately on
first entry, then at most every 0.25 s.  Outside the deadzone a jog is sent
when the direction changed or the feed moved by more than 50 mm/min.
-/

/-- The loop-local `last_dir` / `last_feed` variables and the instance field
`_last_stop_sent` (a timestamp, `0.0` meaning never). -/
structure PluginLoopState where
  last_dir : Dir3
  last_feed : ℚ
  last_stop_sent : ℚ
  deriving DecidableEq

/-- One iteration of the send-decision part of `_loop` (the operational
branch), at wall-clock time `now`. -/
def plugin_tick (s : PluginLoopState) (dir : Dir3) (feed : ℚ) (now : ℚ) :
    Option JogCommand × PluginLoopState :=
  if dir = (0, 0, 0) ∨ feed < 5 then
    if s.last_dir ≠ (0, 0, 0) ∨ s.last_stop_sent = 0
        ∨ now - s.last_stop_sent > 1/4 then
      (some JogCommand.stop,
        { last_dir := (0, 0, 0), last_feed := 0, last_stop_sent := now })
    else
      (none, { last_dir := (0, 0, 0), last_feed := 0,
               last_stop_sent := s.last_stop_sent })
  else if dir ≠ s.last_dir ∨ |feed - s.last_feed| > 50 then
    (some (JogCommand.jog dir feed), { s with last_dir := dir, last_feed := feed })
  else (none, s)

/-! ## Marlin serial printer (src/include/printer.py, class Printer)

`send_gcode` results depend on the serial link, so each modelled operation
takes the corresponding success flag as an oracle argument.  The constant
1000 mm travel distance of the long G1 is part of the command string and is
not modelled.
-/

/-- A serial command written by `Printer`. -/
inductive PrinterCmd
  | m410
  | g1 (carriage : ℕ) (dir : ℚ × ℚ × ℚ) (feed : ℤ)
  deriving DecidableEq

/-- The mutable fields of `Printer` used by `jog` / `stop_jog`. -/
structure PrinterState where
  connected : Bool
  is_moving : Bool
  carriage : ℕ
  last_dir1 : ℚ × ℚ × ℚ
  last_dir2 : ℚ × ℚ × ℚ
  last_feed : ℚ
  deriving DecidableEq

/-- Dictionary lookup `_last_dir[c]`. -/
def PrinterState.lastDir (p : PrinterState) (c : ℕ) : ℚ × ℚ × ℚ :=
  if c = 2 then p.last_dir2 else p.last_dir1

/-- Dictionary write `_last_dir[c] = d`. -/
def PrinterState.setLastDir (p : PrinterState) (c : ℕ) (d : ℚ × ℚ × ℚ) :
    PrinterState :=
  if c = 2 then { p with last_dir2 := d } else { p with last_dir1 := d }

/-- `Printer.set_carriage`: `self._carriage = 1 if which != 2 else 2`. -/
def Printer.set_carriage (p : PrinterState) (which : ℕ) : PrinterState :=
  { p with carriage := if which = 2 then 2 else 1 }

/-- `Printer.stop_jog`: send M410 (`send_ok` is its transport result), then
unconditionally clear `is_moving`, the current carriage's `_last_dir` and
`_last_feed`, and return the send result. -/
def Printer.stop_jog (p : PrinterState) (send_ok : Bool) :
    Bool × List PrinterCmd × PrinterState :=
  (send_ok, [PrinterCmd.m410],
    { p.setLastDir p.carriage (0, 0, 0) with is_moving := false, last_feed := 0 })

/-- `1.0 if v > 0 else (-1.0 if v < 0 else 0.0)` on a velocity component. -/
def sgnQ (x : ℚ) : ℚ := if 0 < x then 1 else if x < 0 then -1 else 0

/-- `Printer.jog`: not-connected guard, direction extraction, stop on the
all-zero direction or non-positive feed, exact-match dedup (tolerance 1e-6),
M410 preamble while moving, then the long G1.  `g1_ok` / `stop_ok` are the
transport results of the respective `send_gcode` calls; `int(feedrate)`
truncates, which on the positive feeds of this branch is the floor. -/
def Printer.jog (p : PrinterState) (vx vy vz feedrate : ℚ)
    (g1_ok stop_ok : Bool) : Bool × List PrinterCmd × PrinterState :=
  if p.connected = false then (false, [], p)
  else if (sgnQ vx, sgnQ vy, sgnQ vz) = ((0 : ℚ), (0 : ℚ), (0 : ℚ)) ∨ feedrate ≤ 0 then
    Printer.stop_jog p stop_ok
  else if (sgnQ vx, sgnQ vy, sgnQ vz) = p.lastDir p.carriage
      ∧ |feedrate - p.last_feed| < 1/1000000 then
    (true, [], p)
  else
    (g1_ok,
      (if p.is_moving then [PrinterCmd.m410] else []) ++
        [PrinterCmd.g1 p.carriage (sgnQ vx, sgnQ vy, sgnQ vz) (max 1 ⌊feedrate⌋)],
      if g1_ok then
        { p.setLastDir p.carriage (sgnQ vx, sgnQ vy, sgnQ vz) with
            is_moving := true, last_feed := feedrate }
      else { p with is_moving := false })

/-! ## The GUI carriage-switch action (src/include/gui.py lines 495-502) -/

/-- The parts of `FlexAlignerGUI` state relevant to the carriage toggle. -/
structure FullGuiState where
  selected_carriage : ℕ
  dedup : GuiDedupState
  printer : PrinterState
  deriving DecidableEq

/-- Button-1 handler of `_handle_joystick_buttons`: flip `selected_carriage`,
update the mapping label, `reset_velocities()` (display velocities only),
then `Printer.stop_jog`.  The `_last_dir_sent` / `_last_feed_sent`
dictionaries are not touched. -/
def handle_toggle_carriage (g : FullGuiState) (stop_ok : Bool) : FullGuiState :=
  { selected_carriage := if g.selected_carriage = 1 then 2 else 1,
    dedup := g.dedup,
    printer := (Printer.stop_jog g.printer stop_ok).2.2 }

/-! ## WebSocket transport client (src/include/AsyncWebClient.py,
class AsyncWebSocketClient)

The pending-request map is modelled by the list of pending ids (the waiting
futures carry no further relevant data); a send attempt's outcome (matched
response, timeout of `asyncio.wait_for`, or send exception) depends on the
network, so it is an oracle argument.
-/

/-- Connection flag, `message_id` counter, and pending-request ids of
`AsyncWebSocketClient`. -/
structure ClientState where
  connected : Bool
  message_id : ℕ
  pending : List ℕ
  deriving DecidableEq

/-- The network-determined fate of one `send_request` call. -/
inductive Outcome
  | ok
  | timeout
  | sendFailure
  deriving DecidableEq

namespace AsyncWebSocketClient

/-- `disconnect`: clear the connection, cancel every pending future and clear
the map.  The first component lists the ids whose waiting callers were
cancelled. -/
def disconnect (s : ClientState) : List ℕ × ClientState :=
  (s.pending, { connected := false, message_id := s.message_id, pending := [] })

/-- The `except` arms of `_message_handler` (`ConnectionClosed` or any other
receive failure): only `self.connected = False` is assigned. -/
def handler_connection_lost (s : ClientState) : ClientState :=
  { s with connected := false }

/-- An inbound frame: an optional correlation id and whether a `method` key
is present. -/
structure IncomingMsg where
  id : Option ℕ
  has_method : Bool
  deriving DecidableEq

/-- Where `_message_handler` routed one inbound frame. -/
inductive Routed
  | toPending (id : ℕ)
  | toHandlers
  | dropped
  deriving DecidableEq

/-- The per-message body of `_message_handler`: a frame whose id is in the
pending map pops exactly that entry and resolves its future; otherwise a
frame with a `method` key goes to the notification handlers. -/
def message_handler_step (s : ClientState) (m : IncomingMsg) :
    Routed × ClientState :=
  match m.id with
  | some i =>
    if i ∈ s.pending then
      (Routed.toPending i, { s with pending := s.pending.erase i })
    else if m.has_method then (Routed.toHandlers, s)
    else (Routed.dropped, s)
  | none =>
    if m.has_method then (Routed.toHandlers, s) else (Routed.dropped, s)

/-- `send_request`: raise if not connected; otherwise allocate
`request_id = message_id`, increment the counter, insert the pending entry,
send, and either return the matched response (which `_message_handler` pops)
or pop the entry on timeout / send failure.  The returned id stands for the
correlated response. -/
def send_request (s : ClientState) (outcome : Outcome) :
    Option ℕ × ClientState :=
  if s.connected = false then (none, s)
  else
    match outcome with
    | Outcome.ok =>
      (some s.message_id,
        { connected := s.connected, message_id := s.message_id + 1,
          pending := (s.message_id :: s.pending).erase s.message_id })
    | Outcome.timeout =>
      (none,
        { connected := s.connected, message_id := s.message_id + 1,
          pending := (s.message_id :: s.pending).erase s.message_id })
    | Outcome.sendFailure =>
      (none,
        { connected := s.connected, message_id := s.message_id + 1,
          pending := (s.message_id :: s.pending).erase s.message_id })

/-- `send_gcode_and_wait`: `send_request` with the exception swallowed into
`None`. -/
def send_gcode_and_wait (s : ClientState) (outcome : Outcome) :
    Option ℕ × ClientState :=
  send_request s outcome

/-- The ids assigned to a sequence of `send_request` calls with the given
outcomes, starting from state `s` (a not-connected call raises before an id
is allocated). -/
def idsOfSends (s : ClientState) : List Outcome → List ℕ
  | [] => []
  | o :: os =>
    if s.connected then s.message_id :: idsOfSends (send_request s o).2 os
    else idsOfSends (send_request s o).2 os

/-- What a controller response means to `send_gcode`'s caller. -/
inductive SendGcodeResult
  | success
  | needsHoming
  | failure
  | noResult
  deriving DecidableEq

/-- The shape of a controller response that `send_gcode` inspects:
whether `result == 'ok'`, and `error.code` when an `error` object exists. -/
structure GcodeResponse where
  result_ok : Bool
  error_code : Option ℤ
  deriving DecidableEq

/-- `send_gcode`: `True` on `result == 'ok'`; `400` when the error code is
400 (machine not homed); an implicit `None` on any other error code; `False`
when `send_request` raised or the error object is absent (the
`AttributeError` of `None.get` is caught by the `except` arm). -/
def send_gcode (resp : Option GcodeResponse) : SendGcodeResult :=
  match resp with
  | none => SendGcodeResult.failure
  | some r =>
    if r.result_ok = false then
      match r.error_code with
      | some c => if c = 400 then SendGcodeResult.needsHoming
                  else SendGcodeResult.noResult
      | none => SendGcodeResult.failure
    else SendGcodeResult.success

end AsyncWebSocketClient

/-! ## Dispatcher reaction to a not-homed rejection
(src/include/AsyncSmoothJoystickController.py,
AsyncSmoothJoystickController.handle_success_message) -/

/-- The `SET_KINEMATIC_POSITION` fallback script: it selects each carriage in
turn and resets the kinematic position to the locally tracked `positions`
of both carriages (`x`,`y` for XY and `u`,`v` for UV). -/
structure KinematicReset where
  x : ℚ
  y : ℚ
  u : ℚ
  v : ℚ
  deriving DecidableEq

/-- The user-visible outcome of `handle_success_message`. -/
inductive HandleOutcome
  | recorded
  | homingError
  | unknownError
  deriving DecidableEq

/-- `handle_success_message`: on a 400 result, send the kinematic reset built
from the locally tracked positions (`fallback` is that send's result) and
show a blocking homing error only if the fallback did not return `True`;
otherwise record performance on success, or show an unknown error.  The
second component is the fallback command, when one was issued. -/
def handle_success_message
    (success : AsyncWebSocketClient.SendGcodeResult) (px py pu pv : ℚ)
    (fallback : AsyncWebSocketClient.SendGcodeResult) :
    HandleOutcome × Option KinematicReset :=
  if success = AsyncWebSocketClient.SendGcodeResult.needsHoming then
    if fallback ≠ AsyncWebSocketClient.SendGcodeResult.success then
      (HandleOutcome.homingError, some ⟨px, py, pu, pv⟩)
    else (HandleOutcome.recorded, some ⟨px, py, pu, pv⟩)
  else if success = AsyncWebSocketClient.SendGcodeResult.success then
    (HandleOutcome.recorded, none)
  else (HandleOutcome.unknownError, none)

/-! ## Time-derived request ids
(src/smooth_jogging_controller.py, SmoothJoystickController.send_gcode)

This older controller stamps each request with
`int(time.time() * 1000) % 100000` instead of a counter. -/

/-- The id `SmoothJoystickController.send_gcode` attaches to a request sent
at wall-clock time `t` (seconds). -/
def smooth_send_id (t : ℚ) : ℤ := ⌊t * 1000⌋ % 100000

/-- The clamped normalisation of `SmoothJoggingConfig` lies in `[0, 1]`. -/
lemma smooth_normalized_mem (cfg : SmoothJoggingConfig) (r : ℚ) :
    0 ≤ cfg.normalized r ∧ cfg.normalized r ≤ 1 :=
  ⟨le_min zero_le_one (le_max_left 0 _), min_le_left 1 _⟩

/-- The clamped normalisation of `JogConfig` lies in `[0, 1]`. -/
lemma jog_normalized_mem (cfg : JogConfig) (r : ℚ) :
    0 ≤ cfg.normalized r ∧ cfg.normalized r ≤ 1 :=
  ⟨le_max_left 0 _, max_le zero_le_one (min_le_left 1 _)⟩

/-- A power of a value in `[0, 1]` stays in `[0, 1]`. -/
lemma pow_mem_unit {c : ℚ} (h0 : 0 ≤ c) (h1 : c ≤ 1) (k : ℕ) :
    0 ≤ c ^ k ∧ c ^ k ≤ 1 := by
  refine ⟨pow_nonneg h0 k, ?_⟩
  calc c ^ k ≤ 1 ^ k := by gcongr
  _ = 1 := one_pow k

/-- Core bound used by both shaping functions. -/
lemma curve_core_bound {b M s c : ℚ} (hb : 0 ≤ b) (hbM : b ≤ M) (hs : 0 ≤ s)
    (hc0 : 0 ≤ c) (hc1 : c ≤ 1) :
    0 ≤ c * (b + (M - b) * c) * s ∧ c * (b + (M - b) * c) * s ≤ M * s := by
  have hmv : 0 ≤ b + (M - b) * c := by nlinarith
  have h1 : 0 ≤ (M - b) * (1 - c * c) := mul_nonneg (by linarith) (by nlinarith)
  have h2 : 0 ≤ b * (1 - c) := mul_nonneg hb (by linarith)
  have hkey : c * (b + (M - b) * c) ≤ M := by nlinarith
  exact ⟨by positivity, mul_le_mul_of_nonneg_right hkey hs⟩

/-- Bound for the `SmoothJoggingConfig` shaping function. -/
lemma smooth_abs_velocity_le (cfg : SmoothJoggingConfig) (raw : ℚ)
    (fine : Bool) (hb : 0 ≤ cfg.base_speed) (hbM : cfg.base_speed ≤ cfg.max_speed)
    (hs : 0 ≤ cfg.velocity_scale) :
    |cfg.get_velocity_curve raw fine| ≤ cfg.max_speed * cfg.velocity_scale := by
  obtain ⟨hn0, hn1⟩ := smooth_normalized_mem cfg raw
  obtain ⟨hc0, hc1⟩ : 0 ≤ cfg.curved raw ∧ cfg.curved raw ≤ 1 :=
    pow_mem_unit hn0 hn1 cfg.acceleration_curve
  have hM0 : (0 : ℚ) ≤ cfg.max_speed := le_trans hb hbM
  have hbody : 0 ≤ cfg.curved raw * cfg.max_vel raw fine * cfg.velocity_scale ∧
      cfg.curved raw * cfg.max_vel raw fine * cfg.velocity_scale
        ≤ cfg.max_speed * cfg.velocity_scale := by
    cases fine with
    | false =>
      have h := curve_core_bound hb hbM hs hc0 (c := cfg.curved raw) hc1
      simpa [SmoothJoggingConfig.max_vel] using h
    | true =>
      have hkey : cfg.curved raw * (cfg.base_speed * (1/5)) ≤ cfg.max_speed := by nlinarith
      refine ⟨?_, ?_⟩
      · simp only [SmoothJoggingConfig.max_vel, if_pos]
        have : (0 : ℚ) ≤ cfg.base_speed * (1/5) := by positivity
        positivity
      · simp only [SmoothJoggingConfig.max_vel, if_pos]
        exact mul_le_mul_of_nonneg_right hkey hs
  unfold SmoothJoggingConfig.get_velocity_curve
  split_ifs
  · simpa using mul_nonneg hM0 hs
  · rw [abs_of_nonneg hbody.1]; exact hbody.2
  · rw [abs_neg, abs_of_nonneg hbody.1]; exact hbody.2

/-- Bound for the `JogConfig` shaping function, under the repository's pinned
`fine_velocity_factor` (set to `1.0` in `__init__`, never mutated). -/
lemma jog_abs_velocity_le (cfg : JogConfig) (raw : ℚ)
    (fine : Bool) (hb : 0 ≤ cfg.base_speed) (hbM : cfg.base_speed ≤ cfg.max_speed)
    (hs : 0 ≤ cfg.velocity_scale) (hf : cfg.fine_velocity_factor = 1) :
    |cfg.get_velocity_curve raw fine| ≤ cfg.max_speed * cfg.velocity_scale := by
  obtain ⟨hn0, hn1⟩ := jog_normalized_mem cfg raw
  obtain ⟨hc0, hc1⟩ : 0 ≤ cfg.curved raw ∧ cfg.curved raw ≤ 1 :=
    pow_mem_unit hn0 hn1 cfg.acceleration_curve
  have hM0 : (0 : ℚ) ≤ cfg.max_speed := le_trans hb hbM
  have hcore := curve_core_bound hb hbM hs hc0 (c := cfg.curved raw) hc1
  have hbody : 0 ≤ cfg.curved raw * cfg.max_vel raw fine * cfg.velocity_scale ∧
      cfg.curved raw * cfg.max_vel raw fine * cfg.velocity_scale
        ≤ cfg.max_speed * cfg.velocity_scale := by
    cases fine with
    | false => simpa [JogConfig.max_vel] using hcore
    | true => simpa [JogConfig.max_vel, hf] using hcore
  unfold JogConfig.get_velocity_curve
  split_ifs
  · simpa using mul_nonneg hM0 hs
  · rw [abs_of_nonneg hbody.1]; exact hbody.2
  · rw [abs_neg, abs_of_nonneg hbody.1]; exact hbody.2

/-- C8: with raw `0.5`, deadzone `0.12`, acceleration curve `2.0`, base `600`,
max `2000`, velocity scale `0.5` and fine mode off (the defaults of
`SmoothJoggingConfig`), `get_velocity_curve` returns `80.3` mm/min within a
tolerance of `0.5`. -/
theorem velocity_curve_half_stick_scenario :
    |SmoothJoggingConfig.default.get_velocity_curve (1/2) false - 803/10| ≤ 1/2 := by
  have habs : |(1/2 : ℚ)| = 1/2 := abs_of_nonneg (by norm_num)
  have hval : SmoothJoggingConfig.default.get_velocity_curve (1/2) false
      = 75223375/937024 := by
    rw [SmoothJoggingConfig.get_velocity_curve]
    norm_num [SmoothJoggingConfig.default, SmoothJoggingConfig.curved,
      SmoothJoggingConfig.normalized, SmoothJoggingConfig.max_vel,
      min_def, max_def, habs]
  rw [hval, abs_le]
  norm_num

/-- C9: for every stick input in `[-1, 1]`, both fine-mode values, and every
configuration with `0 ≤ base_speed ≤ max_speed` and `velocity_scale ≥ 0`
(with `fine_velocity_factor` at its pinned value `1.0` for `JogConfig`),
the shaped velocity of both configuration classes is bounded by
`max_speed * velocity_scale` in absolute value. -/
theorem velocity_curve_bounded (scfg : SmoothJoggingConfig) (jcfg : JogConfig)
    (raw : ℚ) (fine : Bool) (hr1 : -1 ≤ raw) (hr2 : raw ≤ 1)
    (hsb : 0 ≤ scfg.base_speed) (hsM : scfg.base_speed ≤ scfg.max_speed)
    (hss : 0 ≤ scfg.velocity_scale)
    (hjb : 0 ≤ jcfg.base_speed) (hjM : jcfg.base_speed ≤ jcfg.max_speed)
    (hjs : 0 ≤ jcfg.velocity_scale) (hjf : jcfg.fine_velocity_factor = 1) :
    |scfg.get_velocity_curve raw fine| ≤ scfg.max_speed * scfg.velocity_scale ∧
    |jcfg.get_velocity_curve raw fine| ≤ jcfg.max_speed * jcfg.velocity_scale :=
  ⟨smooth_abs_velocity_le scfg raw fine hsb hsM hss,
   jog_abs_velocity_le jcfg raw fine hjb hjM hjs hjf⟩

/-- Witness for C9 at the default configurations, raw `0.5`, fine mode off. -/
theorem velocity_curve_bounded_witness :
    |SmoothJoggingConfig.default.get_velocity_curve (1/2) false|
      ≤ SmoothJoggingConfig.default.max_speed * SmoothJoggingConfig.default.velocity_scale ∧
    |JogConfig.default.get_velocity_curve (1/2) false|
      ≤ JogConfig.default.max_speed * JogConfig.default.velocity_scale :=
  velocity_curve_bounded SmoothJoggingConfig.default JogConfig.default (1/2) false
    (by norm_num) (by norm_num)
    (by norm_num [SmoothJoggingConfig.default])
    (by norm_num [SmoothJoggingConfig.default])
    (by norm_num [SmoothJoggingConfig.default])
    (by norm_num [JogConfig.default])
    (by norm_num [JogConfig.default])
    (by norm_num [JogConfig.default])
    (by norm_num [JogConfig.default])

/-! ### Characterisation of `execute_jog`'s four branches -/

/-- Writing then reading the same carriage's direction. -/
lemma GuiDedupState.lastDir_setLast (s : GuiDedupState) (car : ℕ) (d : Dir3) (f : ℚ) :
    (s.setLast car d f).lastDir car = d := by
  by_cases h : car = 2 <;>
    simp [GuiDedupState.setLast, GuiDedupState.lastDir, h]

/-- Writing then reading the same carriage's feed. -/
lemma GuiDedupState.lastFeed_setLast (s : GuiDedupState) (car : ℕ) (d : Dir3) (f : ℚ) :
    (s.setLast car d f).lastFeed car = f := by
  by_cases h : car = 2 <;>
    simp [GuiDedupState.setLast, GuiDedupState.lastFeed, h]

/-- Branch: direction or feed changed meaningfully, so a jog is sent. -/
lemma execute_jog_move (th : ℚ) (car : ℕ) (s : GuiDedupState) (dir : Dir3) (feed : ℚ)
    (h1 : dir ≠ (0, 0, 0)) (h2 : ¬ max 0 feed < th)
    (h3 : dir ≠ s.lastDir car ∨ |max 0 feed - s.lastFeed car| > feed_resend_threshold) :
    execute_jog th car s dir feed =
      (some (JogCommand.jog (signi dir.1, signi dir.2.1, signi dir.2.2)
          (max 1 (max 0 feed))),
        s.setLast car dir (max 0 feed)) := by
  unfold execute_jog
  rw [if_neg (by push_neg; exact ⟨h1, not_lt.mp h2⟩), if_pos h3]

/-- Branch: unchanged direction and a small feed delta, so nothing is sent. -/
lemma execute_jog_noop (th : ℚ) (car : ℕ) (s : GuiDedupState) (dir : Dir3) (feed : ℚ)
    (h1 : dir ≠ (0, 0, 0)) (h2 : ¬ max 0 feed < th)
    (h3 : dir = s.lastDir car)
    (h4 : |max 0 feed - s.lastFeed car| ≤ feed_resend_threshold) :
    execute_jog th car s dir feed = (none, s) := by
  unfold execute_jog
  rw [if_neg (by push_neg; exact ⟨h1, not_lt.mp h2⟩),
    if_neg (by push_neg; exact ⟨h3, h4⟩)]

/-- Branch: idle input while the carriage was moving, so a stop is sent. -/
lemma execute_jog_stop (th : ℚ) (car : ℕ) (s : GuiDedupState) (dir : Dir3) (feed : ℚ)
    (h1 : dir = (0, 0, 0) ∨ max 0 feed < th) (h2 : s.lastDir car ≠ (0, 0, 0)) :
    execute_jog th car s dir feed
      = (some JogCommand.stop, s.setLast car (0, 0, 0) 0) := by
  unfold execute_jog
  rw [if_pos h1, if_pos h2]

/-- Branch: idle input while already idle, so nothing is sent. -/
lemma execute_jog_idle (th : ℚ) (car : ℕ) (s : GuiDedupState) (dir : Dir3) (feed : ℚ)
    (h1 : dir = (0, 0, 0) ∨ max 0 feed < th) (h2 : s.lastDir car = (0, 0, 0)) :
    execute_jog th car s dir feed = (none, s) := by
  unfold execute_jog
  rw [if_pos h1, if_neg (by simpa using h2)]

/-- C1: in the jog loop with an unchanged selected carriage, a jog command is
issued only if the direction tuple differs from the last-sent direction or
the feed moved by more than the 50 mm/min resend threshold; after a sent jog,
a second call with the same direction and a feed delta of at most 50 issues
nothing; and a direction change (with nonzero direction, feed at or above the
stop threshold) always issues a jog regardless of the feed delta. -/
theorem jog_dedup_rule :
    (∀ th car s dir feed d f,
      (execute_jog th car s dir feed).1 = some (JogCommand.jog d f) →
      dir ≠ s.lastDir car
        ∨ |max 0 feed - s.lastFeed car| > feed_resend_threshold) ∧
    (∀ th car s dir f1 f2,
      dir ≠ (0, 0, 0) → ¬ max 0 f1 < th → ¬ max 0 f2 < th →
      (execute_jog th car s dir f1).1 ≠ none →
      |max 0 f2 - max 0 f1| ≤ feed_resend_threshold →
      (execute_jog th car (execute_jog th car s dir f1).2 dir f2).1 = none) ∧
    (∀ th car s dir feed,
      dir ≠ (0, 0, 0) → ¬ max 0 feed < th → dir ≠ s.lastDir car →
      ∃ d f, (execute_jog th car s dir feed).1 = some (JogCommand.jog d f)) := by
  refine ⟨?_, ?_, ?_⟩
  · intro th car s dir feed d f h
    unfold execute_jog at h
    split_ifs at h with h1 h2 h3
    all_goals first
    | exact h3
    | simp at h
  · intro th car s dir f1 f2 h1 hf1 hf2 hsent hsmall
    by_cases hch : dir ≠ s.lastDir car
        ∨ |max 0 f1 - s.lastFeed car| > feed_resend_threshold
    · rw [execute_jog_move th car s dir f1 h1 hf1 hch]
      exact congrArg Prod.fst
        (execute_jog_noop th car (s.setLast car dir (max 0 f1)) dir f2 h1 hf2
          (GuiDedupState.lastDir_setLast s car dir (max 0 f1)).symm
          (by rw [GuiDedupState.lastFeed_setLast]; exact hsmall))
    · push_neg at hch
      rw [execute_jog_noop th car s dir f1 h1 hf1 hch.1 hch.2] at hsent
      exact absurd rfl hsent
  · intro th car s dir feed h1 h2 h3
    exact ⟨_, _, by rw [execute_jog_move th car s dir feed h1 h2 (Or.inl h3)]⟩

/-- Witness for C1: from a fresh dedup state, direction `(1,0,0)` at feed 100
issues a jog, and the immediately following call with the same direction at
feed 120 (delta 20 ≤ 50) issues nothing. -/
theorem jog_dedup_rule_witness :
    (∃ d f, (execute_jog 5 1 ⟨(0, 0, 0), (0, 0, 0), 0, 0⟩ (1, 0, 0) 100).1
        = some (JogCommand.jog d f)) ∧
    (execute_jog 5 1 (execute_jog 5 1 ⟨(0, 0, 0), (0, 0, 0), 0, 0⟩ (1, 0, 0) 100).2
        (1, 0, 0) 120).1 = none :=
  ⟨jog_dedup_rule.2.2 5 1 ⟨(0, 0, 0), (0, 0, 0), 0, 0⟩ (1, 0, 0) 100 (by decide)
      (by norm_num [max_def]) (by simp [GuiDedupState.lastDir]),
   jog_dedup_rule.2.1 5 1 ⟨(0, 0, 0), (0, 0, 0), 0, 0⟩ (1, 0, 0) 100 120 (by decide)
      (by norm_num [max_def]) (by norm_num [max_def])
      (by rw [execute_jog_move 5 1 _ (1, 0, 0) 100 (by decide) (by norm_num [max_def])
            (Or.inl (by simp [GuiDedupState.lastDir]))]; simp)
      (by norm_num [max_def, feed_resend_threshold])⟩

/-- C2, counterexample: in the OctoPrint plugin loop, a transition to the
all-zero direction at time 10 issues a stop, and the next iteration at time
11 — with the carriage still idle — issues a further stop, because the plugin
re-sends M410 whenever more than 0.25 s elapsed since the last stop. -/
theorem stop_reissued_while_idle :
    (plugin_tick ⟨(1, 0, 0), 600, 0⟩ (0, 0, 0) 600 10).1 = some JogCommand.stop ∧
    (plugin_tick (plugin_tick ⟨(1, 0, 0), 600, 0⟩ (0, 0, 0) 600 10).2
        (0, 0, 0) 600 11).1 = some JogCommand.stop := by
  norm_num [plugin_tick]

/-- C2, amended: in the GUI loop a transition to idle (all-zero direction or
feed below the stop threshold) always issues exactly one stop — never
suppressed by the feed-delta dedup — and subsequent idle calls issue nothing;
in the OctoPrint plugin loop the transition also always issues a stop, but
while idle a stop is re-issued exactly when no stop was ever sent or more
than 0.25 s elapsed since the last one. -/
theorem stop_on_idle_transition :
    (∀ th car s dir feed, (dir = (0, 0, 0) ∨ max 0 feed < th) →
      s.lastDir car ≠ (0, 0, 0) →
      (execute_jog th car s dir feed).1 = some JogCommand.stop ∧
      ((execute_jog th car s dir feed).2).lastDir car = (0, 0, 0)) ∧
    (∀ th car s dir feed, (dir = (0, 0, 0) ∨ max 0 feed < th) →
      s.lastDir car = (0, 0, 0) →
      (execute_jog th car s dir feed).1 = none ∧
      (execute_jog th car s dir feed).2 = s) ∧
    (∀ s dir feed now, (dir = (0, 0, 0) ∨ feed < 5) → s.last_dir ≠ (0, 0, 0) →
      (plugin_tick s dir feed now).1 = some JogCommand.stop) ∧
    (∀ s dir feed now, (dir = (0, 0, 0) ∨ feed < 5) → s.last_dir = (0, 0, 0) →
      ((plugin_tick s dir feed now).1 = some JogCommand.stop
        ↔ s.last_stop_sent = 0 ∨ now - s.last_stop_sent > 1/4)) := by
  refine ⟨?_, ?_, ?_, ?_⟩
  · intro th car s dir feed h1 h2
    rw [execute_jog_stop th car s dir feed h1 h2]
    exact ⟨rfl, GuiDedupState.lastDir_setLast s car (0, 0, 0) 0⟩
  · intro th car s dir feed h1 h2
    rw [execute_jog_idle th car s dir feed h1 h2]
    exact ⟨rfl, rfl⟩
  · intro s dir feed now h1 h2
    unfold plugin_tick
    rw [if_pos h1, if_pos (Or.inl h2)]
  · intro s dir feed now h1 h2
    unfold plugin_tick
    rw [if_pos h1]
    by_cases h3 : s.last_stop_sent = 0 ∨ now - s.last_stop_sent > 1/4
    · rw [if_pos (Or.inr h3)]
      exact iff_of_true rfl h3
    · have hng : ¬(s.last_dir ≠ (0, 0, 0) ∨ s.last_stop_sent = 0
          ∨ now - s.last_stop_sent > 1/4) := by
        push_neg
        exact ⟨h2, (not_or.mp h3).1, not_lt.mp (not_or.mp h3).2⟩
      rw [if_neg hng]
      exact iff_of_false (by simp) h3

/-- Witness for C2's amended statement at concrete states: one stop on the
moving-to-idle transition in both loops, silence while idle in the GUI loop,
and the 0.25 s re-send criterion in the plugin loop. -/
theorem stop_on_idle_transition_witness :
    ((execute_jog 5 1 ⟨(1, 0, 0), (0, 0, 0), 200, 0⟩ (0, 0, 0) 0).1
        = some JogCommand.stop ∧
      ((execute_jog 5 1 ⟨(1, 0, 0), (0, 0, 0), 200, 0⟩ (0, 0, 0) 0).2).lastDir 1
        = (0, 0, 0)) ∧
    ((execute_jog 5 1 ⟨(0, 0, 0), (0, 0, 0), 0, 0⟩ (0, 0, 0) 0).1 = none ∧
      (execute_jog 5 1 ⟨(0, 0, 0), (0, 0, 0), 0, 0⟩ (0, 0, 0) 0).2
        = ⟨(0, 0, 0), (0, 0, 0), 0, 0⟩) ∧
    (plugin_tick ⟨(1, 0, 0), 600, 0⟩ (0, 0, 0) 600 10).1 = some JogCommand.stop ∧
    ((plugin_tick ⟨(0, 0, 0), 0, 10⟩ (0, 0, 0) 600 (41/4)).1 = some JogCommand.stop
      ↔ (10 : ℚ) = 0 ∨ (41/4 : ℚ) - 10 > 1/4) :=
  ⟨stop_on_idle_transition.1 5 1 ⟨(1, 0, 0), (0, 0, 0), 200, 0⟩ (0, 0, 0) 0
      (Or.inl rfl) (by simp [GuiDedupState.lastDir]),
   stop_on_idle_transition.2.1 5 1 ⟨(0, 0, 0), (0, 0, 0), 0, 0⟩ (0, 0, 0) 0
      (Or.inl rfl) (by simp [GuiDedupState.lastDir]),
   stop_on_idle_transition.2.2.1 ⟨(1, 0, 0), 600, 0⟩ (0, 0, 0) 600 10
      (Or.inl rfl) (by decide),
   stop_on_idle_transition.2.2.2 ⟨(0, 0, 0), 0, 10⟩ (0, 0, 0) 600 (41/4)
      (Or.inl rfl) rfl⟩

/-- C3, counterexample: with carriage 2's last-sent direction `(1,0,0)` and
feed 100 still recorded, toggling from carriage 1 to carriage 2 leaves the
dedup dictionaries untouched, and the next input sample for carriage 2 with
the same direction and feed issues no fresh jog command. -/
theorem carriage_switch_no_reset :
    (handle_toggle_carriage
        ⟨1, ⟨(0, 0, 0), (1, 0, 0), 0, 100⟩,
          ⟨true, false, 1, (0, 0, 0), (0, 0, 0), 0⟩⟩ true).selected_carriage = 2 ∧
    (handle_toggle_carriage
        ⟨1, ⟨(0, 0, 0), (1, 0, 0), 0, 100⟩,
          ⟨true, false, 1, (0, 0, 0), (0, 0, 0), 0⟩⟩ true).dedup
      = ⟨(0, 0, 0), (1, 0, 0), 0, 100⟩ ∧
    (execute_jog 5 2
        (handle_toggle_carriage
          ⟨1, ⟨(0, 0, 0), (1, 0, 0), 0, 100⟩,
            ⟨true, false, 1, (0, 0, 0), (0, 0, 0), 0⟩⟩ true).dedup
        (1, 0, 0) 100).1 = none := by
  refine ⟨rfl, rfl, ?_⟩
  rw [execute_jog_noop 5 2 _ (1, 0, 0) 100 (by decide) (by norm_num [max_def])
    (by simp [handle_toggle_carriage, GuiDedupState.lastDir])
    (by norm_num [handle_toggle_carriage, GuiDedupState.lastFeed, max_def,
      feed_resend_threshold])]

/-- C3, amended: the explicit carriage switch stops the printer's motion
(M410 through `Printer.stop_jog`) and flips the selected carriage, but the
GUI's per-carriage last-sent direction and feed are left unchanged for both
carriages; therefore a next input sample whose direction equals the newly
selected carriage's last-sent direction, with a feed delta of at most
50 mm/min and at or above the stop threshold, issues no command at all. -/
theorem carriage_switch_behavior (g : FullGuiState) (stop_ok : Bool) :
    (handle_toggle_carriage g stop_ok).selected_carriage
      = (if g.selected_carriage = 1 then 2 else 1) ∧
    (handle_toggle_carriage g stop_ok).dedup = g.dedup ∧
    (handle_toggle_carriage g stop_ok).printer
      = (Printer.stop_jog g.printer stop_ok).2.2 ∧
    (∀ th dir feed,
      dir ≠ (0, 0, 0) → ¬ max 0 feed < th →
      dir = g.dedup.lastDir (handle_toggle_carriage g stop_ok).selected_carriage →
      |max 0 feed
          - g.dedup.lastFeed (handle_toggle_carriage g stop_ok).selected_carriage|
        ≤ feed_resend_threshold →
      (execute_jog th (handle_toggle_carriage g stop_ok).selected_carriage
        (handle_toggle_carriage g stop_ok).dedup dir feed).1 = none) := by
  refine ⟨rfl, rfl, rfl, ?_⟩
  intro th dir feed h1 h2 h3 h4
  have hd : (handle_toggle_carriage g stop_ok).dedup = g.dedup := rfl
  rw [hd, execute_jog_noop th _ g.dedup dir feed h1 h2 h3 h4]

/-- Witness for C3's amended statement at a concrete state. -/
theorem carriage_switch_behavior_witness :
    (handle_toggle_carriage
        ⟨1, ⟨(0, 0, 0), (1, 0, 0), 0, 100⟩,
          ⟨true, false, 1, (0, 0, 0), (0, 0, 0), 0⟩⟩ true).selected_carriage
      = (if (1 : ℕ) = 1 then 2 else 1) ∧
    (handle_toggle_carriage
        ⟨1, ⟨(0, 0, 0), (1, 0, 0), 0, 100⟩,
          ⟨true, false, 1, (0, 0, 0), (0, 0, 0), 0⟩⟩ true).dedup
      = (⟨(0, 0, 0), (1, 0, 0), 0, 100⟩ : GuiDedupState) ∧
    (handle_toggle_carriage
        ⟨1, ⟨(0, 0, 0), (1, 0, 0), 0, 100⟩,
          ⟨true, false, 1, (0, 0, 0), (0, 0, 0), 0⟩⟩ true).printer
      = (Printer.stop_jog ⟨true, false, 1, (0, 0, 0), (0, 0, 0), 0⟩ true).2.2 ∧
    (∀ th dir feed,
      dir ≠ (0, 0, 0) → ¬ max 0 feed < th →
      dir = (⟨(0, 0, 0), (1, 0, 0), 0, 100⟩ : GuiDedupState).lastDir
        (handle_toggle_carriage
          ⟨1, ⟨(0, 0, 0), (1, 0, 0), 0, 100⟩,
            ⟨true, false, 1, (0, 0, 0), (0, 0, 0), 0⟩⟩ true).selected_carriage →
      |max 0 feed
          - (⟨(0, 0, 0), (1, 0, 0), 0, 100⟩ : GuiDedupState).lastFeed
            (handle_toggle_carriage
              ⟨1, ⟨(0, 0, 0), (1, 0, 0), 0, 100⟩,
                ⟨true, false, 1, (0, 0, 0), (0, 0, 0), 0⟩⟩ true).selected_carriage|
        ≤ feed_resend_threshold →
      (execute_jog th
        (handle_toggle_carriage
          ⟨1, ⟨(0, 0, 0), (1, 0, 0), 0, 100⟩,
            ⟨true, false, 1, (0, 0, 0), (0, 0, 0), 0⟩⟩ true).selected_carriage
        (handle_toggle_carriage
          ⟨1, ⟨(0, 0, 0), (1, 0, 0), 0, 100⟩,
            ⟨true, false, 1, (0, 0, 0), (0, 0, 0), 0⟩⟩ true).dedup dir feed).1
        = none) :=
  carriage_switch_behavior
    ⟨1, ⟨(0, 0, 0), (1, 0, 0), 0, 100⟩, ⟨true, false, 1, (0, 0, 0), (0, 0, 0), 0⟩⟩
    true

/-! ### Transport-client lemmas -/

/-- C4, counterexample: a receive failure in `_message_handler` marks the
client disconnected but leaves the two pending requests in the map — no
caller is cancelled and the map is not emptied. -/
theorem receive_failure_keeps_pending :
    (AsyncWebSocketClient.handler_connection_lost ⟨true, 3, [1, 2]⟩).connected = false ∧
    (AsyncWebSocketClient.handler_connection_lost ⟨true, 3, [1, 2]⟩).pending = [1, 2] :=
  ⟨rfl, rfl⟩

/-- C4, amended: an explicit `disconnect` cancels every pending request and
leaves the map empty; a receive failure in `_message_handler` only marks the
client disconnected, leaving the pending map untouched; a send failure inside
`send_request` removes only the failing request's own entry. -/
theorem disconnect_cancellation :
    (∀ s, (AsyncWebSocketClient.disconnect s).1 = s.pending ∧
      (AsyncWebSocketClient.disconnect s).2.pending = [] ∧
      (AsyncWebSocketClient.disconnect s).2.connected = false) ∧
    (∀ s, (AsyncWebSocketClient.handler_connection_lost s).connected = false ∧
      (AsyncWebSocketClient.handler_connection_lost s).pending = s.pending) ∧
    (∀ s, s.connected = true →
      (AsyncWebSocketClient.send_request s Outcome.sendFailure).1 = none ∧
      ((AsyncWebSocketClient.send_request s Outcome.sendFailure).2).pending
        = s.pending) := by
  refine ⟨fun s => ⟨rfl, rfl, rfl⟩, fun s => ⟨rfl, rfl⟩, ?_⟩
  intro s h
  unfold AsyncWebSocketClient.send_request
  rw [if_neg (by simp [h])]
  exact ⟨rfl, by simp⟩

/-- Witness for C4's amended statement: a send failure with requests 7 and 8
in flight returns an error and leaves exactly 7 and 8 pending. -/
theorem disconnect_cancellation_witness :
    (AsyncWebSocketClient.send_request ⟨true, 9, [7, 8]⟩ Outcome.sendFailure).1
        = none ∧
    ((AsyncWebSocketClient.send_request ⟨true, 9, [7, 8]⟩ Outcome.sendFailure).2).pending
        = [7, 8] :=
  disconnect_cancellation.2.2 ⟨true, 9, [7, 8]⟩ rfl

/-- C5: a timeout of a send-and-wait request returns `None`, removes exactly
its own entry from the pending map (leaving it equal to the map before the
call), and leaves the connection up. -/
theorem timeout_removes_only_own (s : ClientState) (h : s.connected = true) :
    (AsyncWebSocketClient.send_gcode_and_wait s Outcome.timeout).1 = none ∧
    ((AsyncWebSocketClient.send_gcode_and_wait s Outcome.timeout).2).pending
      = s.pending ∧
    ((AsyncWebSocketClient.send_gcode_and_wait s Outcome.timeout).2).connected
      = true := by
  unfold AsyncWebSocketClient.send_gcode_and_wait AsyncWebSocketClient.send_request
  rw [if_neg (by simp [h])]
  exact ⟨rfl, by simp, h⟩

/-- Witness for C5: a position-query timeout while the two jog requests 5 and
6 are in flight leaves both of them pending and unaffected. -/
theorem timeout_removes_only_own_witness :
    (AsyncWebSocketClient.send_gcode_and_wait ⟨true, 7, [5, 6]⟩ Outcome.timeout).1
        = none ∧
    ((AsyncWebSocketClient.send_gcode_and_wait ⟨true, 7, [5, 6]⟩
        Outcome.timeout).2).pending = [5, 6] ∧
    ((AsyncWebSocketClient.send_gcode_and_wait ⟨true, 7, [5, 6]⟩
        Outcome.timeout).2).connected = true :=
  timeout_removes_only_own ⟨true, 7, [5, 6]⟩ rfl

/-- C6: a controller rejection with status code 400 is classified as
needs-homing by `send_gcode`; `handle_success_message` then always issues the
`SET_KINEMATIC_POSITION` fallback built from the locally tracked positions of
both carriages, and shows the blocking homing error exactly when that
fallback did not succeed. -/
theorem needs_homing_fallback :
    AsyncWebSocketClient.send_gcode (some ⟨false, some 400⟩)
      = AsyncWebSocketClient.SendGcodeResult.needsHoming ∧
    (∀ px py pu pv fb,
      (handle_success_message AsyncWebSocketClient.SendGcodeResult.needsHoming
          px py pu pv fb).2 = some ⟨px, py, pu, pv⟩) ∧
    (∀ px py pu pv fb,
      (handle_success_message AsyncWebSocketClient.SendGcodeResult.needsHoming
          px py pu pv fb).1 = HandleOutcome.homingError
        ↔ fb ≠ AsyncWebSocketClient.SendGcodeResult.success) := by
  refine ⟨rfl, ?_, ?_⟩
  · intro px py pu pv fb
    unfold handle_success_message
    rw [if_pos rfl]
    split_ifs <;> rfl
  · intro px py pu pv fb
    unfold handle_success_message
    rw [if_pos rfl]
    by_cases h : fb = AsyncWebSocketClient.SendGcodeResult.success
    · rw [if_neg (by simpa using h)]
      exact iff_of_false (by simp) (by simpa using h)
    · rw [if_pos h]
      exact iff_of_true rfl h

/-! ### Monotone request ids -/

/-- A connected `send_request` keeps the connection and bumps the counter. -/
lemma send_request_conn (s : ClientState) (o : Outcome) (h : s.connected = true) :
    (AsyncWebSocketClient.send_request s o).2.connected = true ∧
    (AsyncWebSocketClient.send_request s o).2.message_id = s.message_id + 1 := by
  unfold AsyncWebSocketClient.send_request
  rw [if_neg (by simp [h])]
  cases o <;> exact ⟨h, rfl⟩

/-- A not-connected `send_request` raises before touching any state. -/
lemma send_request_not_conn (s : ClientState) (o : Outcome)
    (h : s.connected = false) :
    (AsyncWebSocketClient.send_request s o).2 = s := by
  unfold AsyncWebSocketClient.send_request
  rw [if_pos h]

/-- Every id assigned after state `s` is at least `s.message_id`. -/
lemma idsOfSends_lower (os : List Outcome) :
    ∀ (s : ClientState), ∀ x ∈ AsyncWebSocketClient.idsOfSends s os,
      s.message_id ≤ x := by
  induction os with
  | nil => intro s x hx; simp [AsyncWebSocketClient.idsOfSends] at hx
  | cons o os ih =>
    intro s x hx
    unfold AsyncWebSocketClient.idsOfSends at hx
    by_cases hc : s.connected = true
    · rw [if_pos hc] at hx
      rcases List.mem_cons.mp hx with rfl | hx2
      · exact le_refl _
      · have h1 := ih (AsyncWebSocketClient.send_request s o).2 x hx2
        have h2 := (send_request_conn s o hc).2
        omega
    · rw [if_neg hc] at hx
      rw [send_request_not_conn s o (by simpa using hc)] at hx
      exact ih s x hx

/-- The assigned ids are strictly increasing in send order. -/
lemma idsOfSends_pairwise (os : List Outcome) :
    ∀ s : ClientState,
      List.Pairwise (· < ·) (AsyncWebSocketClient.idsOfSends s os) := by
  induction os with
  | nil => intro s; simp [AsyncWebSocketClient.idsOfSends]
  | cons o os ih =>
    intro s
    unfold AsyncWebSocketClient.idsOfSends
    by_cases hc : s.connected = true
    · rw [if_pos hc]
      refine List.pairwise_cons.mpr ⟨?_, ih _⟩
      intro x hx
      have h1 := idsOfSends_lower os (AsyncWebSocketClient.send_request s o).2 x hx
      have h2 := (send_request_conn s o hc).2
      omega
    · rw [if_neg hc]
      exact ih _

/-- C7, amended: in `AsyncWebSocketClient` every later request carries a
strictly greater id than every earlier one (the counter-assigned ids are
pairwise increasing in send order), and an inbound response whose id is in
the pending map is matched by popping exactly that entry; the older
`SmoothJoystickController.send_gcode`, by contrast, derives its ids from the
wall clock modulo 100000, which is not monotone. -/
theorem request_ids_monotone :
    (∀ (s : ClientState) (os : List Outcome),
      List.Pairwise (· < ·) (AsyncWebSocketClient.idsOfSends s os)) ∧
    (∀ (s : ClientState) (i : ℕ) (m : Bool), i ∈ s.pending →
      AsyncWebSocketClient.message_handler_step s ⟨some i, m⟩
        = (AsyncWebSocketClient.Routed.toPending i,
           { s with pending := s.pending.erase i })) := by
  refine ⟨fun s os => idsOfSends_pairwise os s, ?_⟩
  intro s i m hi
  unfold AsyncWebSocketClient.message_handler_step
  simp [hi]

/-- Witness for C7's amended statement: three sends from a fresh client give
strictly increasing ids, and a response for pending id 3 pops exactly it. -/
theorem request_ids_monotone_witness :
    List.Pairwise (· < ·)
      (AsyncWebSocketClient.idsOfSends ⟨true, 1, []⟩
        [Outcome.ok, Outcome.timeout, Outcome.ok]) ∧
    AsyncWebSocketClient.message_handler_step ⟨true, 5, [3, 4]⟩ ⟨some 3, false⟩
      = (AsyncWebSocketClient.Routed.toPending 3, ⟨true, 5, [4]⟩) :=
  ⟨request_ids_monotone.1 ⟨true, 1, []⟩ [Outcome.ok, Outcome.timeout, Outcome.ok],
   request_ids_monotone.2 ⟨true, 5, [3, 4]⟩ 3 false (by decide)⟩

/-- Evaluation of the wall-clock id at a millisecond-exact time. -/
lemma smooth_send_id_int (n : ℤ) (t : ℚ) (h : t * 1000 = (n : ℚ)) :
    smooth_send_id t = n % 100000 := by
  unfold smooth_send_id
  rw [h, Int.floor_intCast]

/-- C7, counterexample: a request sent at t = 99.999 s carries id 99999 while
the later request at t = 100.001 s carries id 1 — the later id is smaller,
refuting strict monotonicity of the time-derived ids. -/
theorem time_based_id_not_monotone :
    (99999/1000 : ℚ) < 100001/1000 ∧
    smooth_send_id (100001/1000) < smooth_send_id (99999/1000) := by
  have e1 : smooth_send_id (99999/1000) = 99999 % 100000 :=
    smooth_send_id_int 99999 _ (by norm_num)
  have e2 : smooth_send_id (100001/1000) = 100001 % 100000 :=
    smooth_send_id_int 100001 _ (by norm_num)
  rw [e1, e2]
  norm_num

/-! ### Printer stop/jog interaction -/

/-- The state produced by `Printer.stop_jog`: the carriage selection and the
connection flag are untouched, the current carriage's last direction, the
last feed and the moving flag are cleared. -/
lemma PrinterState.stop_state (p : PrinterState) (ok : Bool) :
    (Printer.stop_jog p ok).2.2.carriage = p.carriage ∧
    (Printer.stop_jog p ok).2.2.connected = p.connected ∧
    (Printer.stop_jog p ok).2.2.lastDir p.carriage = (0, 0, 0) ∧
    (Printer.stop_jog p ok).2.2.last_feed = 0 ∧
    (Printer.stop_jog p ok).2.2.is_moving = false := by
  by_cases h : p.carriage = 2 <;>
    simp [Printer.stop_jog, PrinterState.setLastDir, PrinterState.lastDir, h]

/-- C10: `Printer.stop_jog` clears the jog-dedup state unconditionally — it
returns the transport result of M410, but even on a failed send `is_moving`
is false, the selected carriage's last direction is all-zero and the last
feed is 0; consequently a following `jog` with any nonzero direction and
positive feed re-issues the long G1 instead of being suppressed by the
exact-match dedup. -/
theorem stop_jog_unconditional_reset (p : PrinterState) (send_ok : Bool) :
    (Printer.stop_jog p send_ok).1 = send_ok ∧
    (Printer.stop_jog p send_ok).2.1 = [PrinterCmd.m410] ∧
    (Printer.stop_jog p send_ok).2.2.is_moving = false ∧
    (Printer.stop_jog p send_ok).2.2.lastDir p.carriage = (0, 0, 0) ∧
    (Printer.stop_jog p send_ok).2.2.last_feed = 0 ∧
    (∀ vx vy vz feedrate g1_ok stop_ok2,
      p.connected = true →
      ((sgnQ vx, sgnQ vy, sgnQ vz) : ℚ × ℚ × ℚ) ≠ (0, 0, 0) →
      0 < feedrate →
      PrinterCmd.g1 p.carriage (sgnQ vx, sgnQ vy, sgnQ vz) (max 1 ⌊feedrate⌋)
        ∈ (Printer.jog (Printer.stop_jog p send_ok).2.2 vx vy vz feedrate
            g1_ok stop_ok2).2.1) := by
  obtain ⟨hcar, hconn, hdir, hfeed, hmov⟩ := PrinterState.stop_state p send_ok
  refine ⟨rfl, rfl, hmov, hdir, hfeed, ?_⟩
  intro vx vy vz feedrate g1_ok stop_ok2 hc hnz hf
  unfold Printer.jog
  rw [if_neg (by simp [hconn, hc])]
  rw [if_neg (by push_neg; exact ⟨hnz, hf⟩)]
  rw [if_neg ?hnm]
  case hnm =>
    rintro ⟨hd, -⟩
    rw [hcar, hdir] at hd
    exact hnz hd
  simp [hmov, hcar]

/-- Witness for C10: after a `stop_jog` whose M410 send failed, a jog along
`+x` at feed 300 still emits the long G1. -/
theorem stop_jog_unconditional_reset_witness :
    (Printer.stop_jog ⟨true, true, 1, (1, 0, 0), (0, 0, 0), 300⟩ false).1 = false ∧
    (Printer.stop_jog ⟨true, true, 1, (1, 0, 0), (0, 0, 0), 300⟩ false).2.2.is_moving
      = false ∧
    (Printer.stop_jog ⟨true, true, 1, (1, 0, 0), (0, 0, 0), 300⟩ false).2.2.lastDir 1
      = (0, 0, 0) ∧
    (Printer.stop_jog ⟨true, true, 1, (1, 0, 0), (0, 0, 0), 300⟩ false).2.2.last_feed
      = 0 ∧
    PrinterCmd.g1 1 (sgnQ 3, sgnQ 0, sgnQ 0) (max 1 ⌊(300 : ℚ)⌋)
      ∈ (Printer.jog
          (Printer.stop_jog ⟨true, true, 1, (1, 0, 0), (0, 0, 0), 300⟩ false).2.2
          3 0 0 300 true true).2.1 :=
  ⟨(stop_jog_unconditional_reset ⟨true, true, 1, (1, 0, 0), (0, 0, 0), 300⟩ false).1,
   (stop_jog_unconditional_reset ⟨true, true, 1, (1, 0, 0), (0, 0, 0), 300⟩
      false).2.2.1,
   (stop_jog_unconditional_reset ⟨true, true, 1, (1, 0, 0), (0, 0, 0), 300⟩
      false).2.2.2.1,
   (stop_jog_unconditional_reset ⟨true, true, 1, (1, 0, 0), (0, 0, 0), 300⟩
      false).2.2.2.2.1,
   (stop_jog_unconditional_reset ⟨true, true, 1, (1, 0, 0), (0, 0, 0), 300⟩
      false).2.2.2.2.2 3 0 0 300 true true rfl (by norm_num [sgnQ]) (by norm_num)⟩

end FlexCableAligner
